import Mathlib

/-!
Shallow embedding of the `@jalexw/calendar-ics-parser` parsing pipeline
(`src/utils/icsUtils.ts` and the `parseIcsData` implementation) and proofs
about it.  Strings are modelled as `List Char`; JavaScript string methods
(`replace` with a global regex, `split`, `trim`, `indexOf`, `substring`,
`parseInt`) are modelled char-by-char with the same left-to-right,
non-overlapping scan semantics the JS runtime uses.
-/

namespace ICS

/-- Strings are modelled as lists of characters. -/
abbrev Str := List Char

/-- Conversion from Lean string literals to the model's string type. -/
def str (s : String) : Str := s.data

/-- The whitespace characters recognised by JavaScript's `String.prototype.trim`
(the ASCII ones plus NBSP and the BOM; other exotic Unicode space characters do
not occur in this development). -/
def isJsWs (c : Char) : Bool :=
  c = ' ' || c = '\t' || c = '\n' || c = '\r' || c = '\x0b' || c = '\x0c' ||
  c = '\u00A0' || c = '\uFEFF'

/-- Model of `s.trim()`: strip leading and trailing whitespace. -/
def jsTrim (l : Str) : Str :=
  ((l.dropWhile isJsWs).reverse.dropWhile isJsWs).reverse

/-- Model of `s.indexOf(c)` restricted to single-character needles:
`none` models the JS result `-1`. -/
def jsIndexOf (c : Char) : Str → Option Nat
  | [] => none
  | x :: r => if x = c then some 0 else (jsIndexOf c r).map (· + 1)

/-- Model of `s.split(sep)` for a single-character separator: the list of
(possibly empty) segments between occurrences of `sep`. -/
def splitOnChar (sep : Char) : Str → List Str
  | [] => [[]]
  | c :: rest =>
    match splitOnChar sep rest with
    | [] => [[]]
    | s :: ss => if c = sep then [] :: s :: ss else (c :: s) :: ss

/-- Model of `arr.join(sep)`. -/
def joinSep (sep : Str) : List Str → Str
  | [] => []
  | [x] => x
  | x :: r => x ++ sep ++ joinSep sep r

/-- ASCII uppercasing, modelling `String.prototype.toUpperCase` on the ASCII
property names and parameter keys this parser handles. -/
def toUpperL (l : Str) : Str := l.map Char.toUpper

/-- Model of `s.replace(/ab/g, "r")` for a two-character literal pattern and a
one-character replacement: a single left-to-right scan over the original
string, never rescanning emitted replacement characters (exactly the JS global
`replace` semantics for a fixed pattern). -/
def jsReplace2 (a b r : Char) : Str → Str
  | x :: y :: rest =>
    if x = a ∧ y = b then r :: jsReplace2 a b r rest
    else x :: jsReplace2 a b r (y :: rest)
  | l => l

/-- Model of `value.replace(/\\n/g,"\n").replace(/\\r/g,"\r").replace(/\\t/g,"\t")
.replace(/\\;/g,";").replace(/\\,/g,",").replace(/\\\\/g,"\\")`
from `unescapeValue` in `icsUtils.ts`: six sequential global replaces, in this
order. -/
def unescapeValueL (l : Str) : Str :=
  jsReplace2 '\\' '\\' '\\'
    (jsReplace2 '\\' ',' ','
      (jsReplace2 '\\' ';' ';'
        (jsReplace2 '\\' 't' '\t'
          (jsReplace2 '\\' 'r' '\r'
            (jsReplace2 '\\' 'n' '\n' l)))))

/-- `unescapeValue` at the `String` level. -/
def unescapeValue (s : String) : String := ⟨unescapeValueL s.data⟩

/-- Modelled from the spec: the escaping transformation that claim C4 pairs
with `unescapeValue` — encode newline, carriage return, tab, semicolon and
comma as backslash escapes and double each backslash.  The repository itself
contains no escape function; this definition follows the claim's wording. -/
def escapeValueSpec (l : Str) : Str :=
  l.flatMap fun c =>
    if c = '\\' then str "\\\\"
    else if c = '\n' then str "\\n"
    else if c = '\r' then str "\\r"
    else if c = '\t' then str "\\t"
    else if c = ';' then str "\\;"
    else if c = ',' then str "\\,"
    else [c]

/-- Model of `content.replace(/\r\n[ \t]/g, "")`: remove every CRLF that is
directly followed by a space or tab, together with that space or tab
(RFC 5545 line unfolding, CRLF case). -/
def removeCrlfFold : Str → Str
  | c :: d :: e :: rest =>
    if c = '\r' ∧ d = '\n' ∧ (e = ' ' ∨ e = '\t') then removeCrlfFold rest
    else c :: removeCrlfFold (d :: e :: rest)
  | l => l

/-- Model of `content.replace(/\n[ \t]/g, "")`: the bare-LF folding case. -/
def removeLfFold : Str → Str
  | c :: d :: rest =>
    if c = '\n' ∧ (d = ' ' ∨ d = '\t') then removeLfFold rest
    else c :: removeLfFold (d :: rest)
  | l => l

/-- Model of `content.replace(/\r?\n/g, "\n")`: drop every CR that immediately
precedes an LF (a bare CR not followed by LF is left in place, as in the
source regex; a lone LF is replaced by itself). -/
def normalizeEol : Str → Str
  | c :: d :: rest =>
    if c = '\r' ∧ d = '\n' then '\n' :: normalizeEol rest
    else c :: normalizeEol (d :: rest)
  | l => l

/-- Model of `unfoldLines` from `icsUtils.ts`: remove folded line breaks,
normalise line endings, split on LF and drop blank lines. -/
def unfoldLinesL (content : Str) : List Str :=
  (splitOnChar '\n' (normalizeEol (removeLfFold (removeCrlfFold content)))).filter
    (fun line => !(jsTrim line).isEmpty)

/-- `unfoldLines` at the `String` level. -/
def unfoldLines (content : String) : List String :=
  (unfoldLinesL content.data).map (fun l => ⟨l⟩)

/-! ### Property tokenization (`parsePropertyLine`, `parseParameters`) -/

/-- The result shape of `parsePropertyLine`: `{ name, parameters, value }`.
Parameter maps (`Record<string, string>` in the source) are modelled as
association lists in insertion order with unique keys. -/
structure PropertyToken where
  name : Str
  parameters : List (Str × Str)
  value : Str
deriving DecidableEq, Repr

/-- Model of `obj[key] = value` on a JS object used as a string map: overwrite
the existing entry in place, or append a new one. -/
def objSet (k v : Str) : List (Str × Str) → List (Str × Str)
  | [] => [(k, v)]
  | (k', v') :: rest => if k' = k then (k, v) :: rest else (k', v') :: objSet k v rest

/-- Model of reading `obj[key]` from a JS object used as a string map
(`undefined` is `none`). -/
def objGet (k : Str) : List (Str × Str) → Option Str
  | [] => none
  | (k', v) :: rest => if k' = k then some v else objGet k rest

/-- Model of `parseParameters` from `icsUtils.ts`: split the parameter string
on semicolons; for each `KEY=VALUE` pair (pairs without `=` are skipped)
uppercase the key, strip one leading and trailing double quote when both are
present, and store the pair. -/
def parseParameters (paramString : Str) : List (Str × Str) :=
  (splitOnChar ';' paramString).foldl
    (fun parameters pair =>
      match jsIndexOf '=' pair with
      | none => parameters
      | some i =>
        let key := toUpperL (pair.take i)
        let v := pair.drop (i + 1)
        let v := if v.head? = some '"' ∧ v.getLast? = some '"' then (v.drop 1).dropLast else v
        objSet key v parameters)
    []

/-- Model of `parsePropertyLine` from `icsUtils.ts`: split at the first colon
(`line.indexOf(":")`); the part before the first semicolon of the left segment
is the name (uppercased), the rest are parameters; the right segment is the
value, escape-decoded.  A line without any colon throws, modelled as
`Except.error` carrying the JS error message. -/
def parsePropertyLineE (line : Str) : Except Str PropertyToken :=
  match jsIndexOf ':' line with
  | none => .error (str "Invalid property line: " ++ line)
  | some colonIndex =>
    let propertyPart := line.take colonIndex
    let value := line.drop (colonIndex + 1)
    match jsIndexOf ';' propertyPart with
    | none =>
      .ok { name := toUpperL propertyPart, parameters := [], value := unescapeValueL value }
    | some semicolonIndex =>
      .ok { name := toUpperL (propertyPart.take semicolonIndex)
            parameters := parseParameters (propertyPart.drop (semicolonIndex + 1))
            value := unescapeValueL value }

/-- The token `parsePropertyLine` builds once the line has been decomposed as
`pre ++ ":" ++ post`: `pre` is the name;params segment, `post` the raw value. -/
def tokenOfSegments (pre post : Str) : PropertyToken :=
  match jsIndexOf ';' pre with
  | none => { name := toUpperL pre, parameters := [], value := unescapeValueL post }
  | some j =>
    { name := toUpperL (pre.take j)
      parameters := parseParameters (pre.drop (j + 1))
      value := unescapeValueL post }

/-! ### Person properties and comma splitting -/

/-- The record returned by `parsePersonProperty` (organizer/attendee candidate):
`{ email, commonName, role, partstat, rsvp }`, with `undefined` fields as
`none`. -/
structure PersonProperty where
  email : Str
  commonName : Option Str
  role : Option Str
  partstat : Option Str
  rsvp : Option Bool
deriving DecidableEq, Repr

/-- Model of `x || undefined` on an optional string: an absent or empty
(falsy) string becomes `undefined`. -/
def orUndefined : Option Str → Option Str
  | none => none
  | some v => if v = [] then none else some v

/-- Model of `parsePersonProperty` from `icsUtils.ts`: strip a leading
`mailto:` from the value to get the email; `CN`/`ROLE`/`PARTSTAT` parameters
pass through `|| undefined`; `rsvp` is `true` exactly when the `RSVP`
parameter equals `"TRUE"`, and `undefined` otherwise (`=== "TRUE" ||
undefined` can never produce `false`). -/
def parsePersonProperty (value : Str) (parameters : List (Str × Str)) : PersonProperty :=
  { email := if (str "mailto:").isPrefixOf value then value.drop 7 else value
    commonName := orUndefined (objGet (str "CN") parameters)
    role := orUndefined (objGet (str "ROLE") parameters)
    partstat := orUndefined (objGet (str "PARTSTAT") parameters)
    rsvp := if objGet (str "RSVP") parameters = some (str "TRUE") then some true else none }

/-- Loop of `splitCommaSeparated`: `current` is the segment accumulated so
far, `escaped` the escape flag.  On an unescaped comma the trimmed, unescaped
segment is pushed (even when empty); the final segment is pushed only when its
trim is non-empty (`if (current.trim())`). -/
def splitCommaGo : Str → Str → Bool → List Str
  | [], current, _ =>
    if (jsTrim current).isEmpty then [] else [unescapeValueL (jsTrim current)]
  | c :: rest, current, escaped =>
    if escaped then splitCommaGo rest (current ++ [c]) false
    else if c = '\\' then splitCommaGo rest (current ++ [c]) true
    else if c = ',' then unescapeValueL (jsTrim current) :: splitCommaGo rest [] false
    else splitCommaGo rest (current ++ [c]) false

/-- Model of `splitCommaSeparated` from `icsUtils.ts`. -/
def splitCommaSeparated (value : Str) : List Str := splitCommaGo value [] false

/-- Model of `parseInt(s, 10)`: skip leading whitespace, read an optional
sign and then the longest decimal-digit run; no digits gives `NaN`, modelled
as `none`. -/
def jsParseInt (l : Str) : Option Int :=
  let l := l.dropWhile isJsWs
  let signAndRest : Int × Str :=
    match l with
    | '-' :: r => (-1, r)
    | '+' :: r => (1, r)
    | r => (1, r)
  let ds := signAndRest.2.takeWhile Char.isDigit
  if ds.isEmpty then none
  else some (signAndRest.1 * (ds.foldl (fun a c => a * 10 + (c.toNat - '0'.toNat)) 0 : Nat))

/-! ### Block tree builder (`parseIntoBlocks`) -/

/-- The `ComponentBlock` interface of `parseIcsData`: a type tag, the
tokenized properties, and the nested sub-components. -/
inductive ComponentBlock where
  | mk : Str → List PropertyToken → List ComponentBlock → ComponentBlock

def ComponentBlock.type : ComponentBlock → Str
  | .mk t _ _ => t

def ComponentBlock.properties : ComponentBlock → List PropertyToken
  | .mk _ p _ => p

def ComponentBlock.subComponents : ComponentBlock → List ComponentBlock
  | .mk _ _ s => s

/-- An in-progress component on the builder's explicit stack.  The source
mutates a block in place and links it into its parent at `BEGIN` time; the
functional model accumulates properties and completed children (in reverse)
and attaches the finished block to its parent at the matching `END`, which
produces the same tree whenever building succeeds. -/
structure BuildFrame where
  type : Str
  propsRev : List PropertyToken
  subsRev : List ComponentBlock

/-- Close a finished frame into a `ComponentBlock`. -/
def closeFrame (f : BuildFrame) : ComponentBlock :=
  .mk f.type f.propsRev.reverse f.subsRev.reverse

/-- One line of the `parseIntoBlocks` loop, acting on the completed root
blocks and the stack (top of stack first).  Per-line failures (unexpected or
mismatched `END`, property outside a component, malformed property line) are
caught in the source and the line is skipped, so here they leave the state
unchanged. -/
def blocksStep (acc : List ComponentBlock × List BuildFrame) (rawLine : Str) :
    List ComponentBlock × List BuildFrame :=
  let line := jsTrim rawLine
  if line.isEmpty then acc
  else if (str "BEGIN:").isPrefixOf line then
    (acc.1, ⟨line.drop 6, [], []⟩ :: acc.2)
  else if (str "END:").isPrefixOf line then
    match acc.2 with
    | [] => acc
    | top :: rest =>
      if top.type ≠ line.drop 4 then acc
      else
        match rest with
        | [] => (acc.1 ++ [closeFrame top], [])
        | parent :: rest' =>
          (acc.1, { parent with subsRev := closeFrame top :: parent.subsRev } :: rest')
  else
    match acc.2 with
    | [] => acc
    | top :: rest =>
      match parsePropertyLineE line with
      | .error _ => acc
      | .ok p => (acc.1, { top with propsRev := p :: top.propsRev } :: rest)

/-- Model of `parseIntoBlocks`: fold the line loop and apply the terminal
check — a non-empty stack (unclosed components) throws
`Unclosed components: <types bottom to top>`, the only exception this
function can raise.  The `debug` flag only gates `console.warn` calls in the
source and has no effect on the returned value. -/
def parseIntoBlocks (debug : Bool) (lines : List Str) : Except Str (List ComponentBlock) :=
  let result := lines.foldl blocksStep ([], [])
  match result.2 with
  | [] => .ok result.1
  | stack =>
    .error (str "Unclosed components: " ++ joinSep (str ", ") (stack.reverse.map (·.type)))

/-! ### Zod schema checks (`IcsEvent.ts`, `IcsCalendar.ts`) -/

/-- Every character is a decimal digit. -/
def allDigits (l : Str) : Bool := l.all Char.isDigit

/-- Model of the `icsDateTimeSchema` regex `^\d{8}T\d{6}Z?$`. -/
def isDateTime (l : Str) : Bool :=
  let date := l.take 8
  let rest := l.drop 8
  date.length = 8 && allDigits date &&
    match rest with
    | 'T' :: t =>
      let hms := t.take 6
      let z := t.drop 6
      hms.length = 6 && allDigits hms && (z.isEmpty || z = ['Z'])
    | _ => false

/-- Model of the `icsDateSchema` regex `^\d{8}$`. -/
def isDate (l : Str) : Bool := l.length = 8 && allDigits l

/-- Model of `icsDateOrDateTimeSchema` (union of the two). -/
def isDateOrDateTime (l : Str) : Bool := isDate l || isDateTime l

/-- Consume `-?\d+\.?\d*` from the front; `none` when there is no digit run. -/
def geoNumEat (l : Str) : Option Str :=
  let l1 := match l with
    | '-' :: r => r
    | r => r
  let ds := l1.takeWhile Char.isDigit
  if ds.isEmpty then none
  else
    match l1.drop ds.length with
    | '.' :: r2 => some (r2.dropWhile Char.isDigit)
    | r2 => some r2

/-- Model of the `geoSchema` regex `^-?\d+\.?\d*;-?\d+\.?\d*$`. -/
def isGeo (l : Str) : Bool :=
  match geoNumEat l with
  | some (';' :: r) => geoNumEat r = some []
  | _ => false

/-- A character allowed anywhere in the local part of Zod's email regex
`[A-Z0-9_'+\-\.]` (case-insensitive). -/
def emailLocalChar (c : Char) : Bool :=
  c.isAlpha || c.isDigit || c = '_' || c = '\'' || c = '+' || c = '-' || c = '.'

/-- A character allowed as the final local-part character `[A-Z0-9_+-]`. -/
def emailLocalEndChar (c : Char) : Bool :=
  c.isAlpha || c.isDigit || c = '_' || c = '+' || c = '-'

/-- Does the string contain two consecutive dots? -/
def hasDoubleDot : Str → Bool
  | '.' :: '.' :: _ => true
  | _ :: rest => hasDoubleDot rest
  | [] => false

/-- One non-final domain label `[A-Z0-9][A-Z0-9\-]*`. -/
def emailLabelOk (l : Str) : Bool :=
  match l with
  | [] => false
  | c :: rest => (c.isAlpha || c.isDigit) && rest.all (fun d => d.isAlpha || d.isDigit || d = '-')

/-- Model of `z.string().email()` (the Zod v3 email regex
`^(?!\.)(?!.*\.\.)([A-Z0-9_'+\-\.]*)[A-Z0-9_+-]@([A-Z0-9][A-Z0-9\-]*\.)+[A-Z]{2,}$/i`):
no leading dot, no double dot anywhere, a local part over the allowed charset
ending in a non-dot character, an `@`, and dot-separated alphanumeric labels
ending in an all-letter TLD of length at least two. -/
def emailCheck (s : Str) : Bool :=
  ¬(s.head? = some '.') && !hasDoubleDot s &&
    match jsIndexOf '@' s with
    | none => false
    | some i =>
      let localPart := s.take i
      let domain := s.drop (i + 1)
      (match localPart.getLast? with
       | some c => emailLocalEndChar c
       | none => false) &&
      localPart.all emailLocalChar &&
      (let labels := splitOnChar '.' domain
       match labels.getLast? with
       | none => false
       | some tld =>
         labels.length ≥ 2 && (labels.dropLast.all emailLabelOk) &&
           tld.length ≥ 2 && tld.all Char.isAlpha)

/-- Model of `z.string().url()`, i.e. acceptance by the WHATWG `URL`
constructor, approximated as: an ASCII-letter-initial scheme followed by a
colon.  Host validation for special schemes is not modelled; no claim in this
development depends on this predicate. -/
def urlCheck (l : Str) : Bool :=
  match l with
  | [] => false
  | c :: rest =>
    c.isAlpha &&
      (rest.dropWhile (fun d => d.isAlphanum || d = '+' || d = '-' || d = '.')).head? = some ':'

/-- `z.enum([...])` membership, applied to an optional field. -/
def optCheck (f : Str → Bool) : Option Str → Bool
  | none => true
  | some v => f v

/-- A numeric field produced by `parseInt`: the outer `Option` is presence,
the inner `Option` is `NaN` (`none`).  `z.number().int().min(lo).max(hi)`
rejects `NaN` and out-of-range values. -/
def numCheckRange (lo hi : Int) : Option (Option Int) → Bool
  | none => true
  | some none => false
  | some (some n) => lo ≤ n && n ≤ hi

/-- Like `numCheckRange` with only a lower bound (`SEQUENCE`). -/
def numCheckGe (lo : Int) : Option (Option Int) → Bool
  | none => true
  | some none => false
  | some (some n) => lo ≤ n

def eventStatusEnum : List Str := [str "TENTATIVE", str "CONFIRMED", str "CANCELLED"]
def classEnum : List Str := [str "PUBLIC", str "PRIVATE", str "CONFIDENTIAL"]
def transpEnum : List Str := [str "OPAQUE", str "TRANSPARENT"]
def roleEnum : List Str :=
  [str "CHAIR", str "REQ-PARTICIPANT", str "OPT-PARTICIPANT", str "NON-PARTICIPANT"]
def partstatEnum : List Str :=
  [str "NEEDS-ACTION", str "ACCEPTED", str "DECLINED", str "TENTATIVE", str "DELEGATED"]
def todoStatusEnum : List Str :=
  [str "NEEDS-ACTION", str "COMPLETED", str "IN-PROCESS", str "CANCELLED"]
def calscaleEnum : List Str := [str "GREGORIAN"]
def methodEnum : List Str :=
  [str "PUBLISH", str "REQUEST", str "REPLY", str "ADD", str "CANCEL", str "REFRESH",
   str "COUNTER", str "DECLINECOUNTER"]

/-- Validity of an attendee under `attendeeSchema`: email format, optional
`role`/`partstat` enum membership (`commonName` and `rsvp` are free). -/
def attendeeOk (p : PersonProperty) : Bool :=
  emailCheck p.email && optCheck (roleEnum.contains ·) p.role &&
    optCheck (partstatEnum.contains ·) p.partstat

/-! ### Event mapper (`parseEventBlock`) -/

/-- The mutable `Partial<IcsEvent>` accumulated by `parseEventBlock`'s
property loop.  Numeric fields keep the raw `parseInt` result (`none` inside
the inner option is `NaN`); `cls` models the TS field `class`. -/
structure EventDraft where
  uid : Option Str := none
  dtstamp : Option Str := none
  dtstart : Option Str := none
  dtend : Option Str := none
  duration : Option Str := none
  summary : Option Str := none
  description : Option Str := none
  location : Option Str := none
  status : Option Str := none
  cls : Option Str := none
  transp : Option Str := none
  priority : Option (Option Int) := none
  sequence : Option (Option Int) := none
  created : Option Str := none
  lastModified : Option Str := none
  url : Option Str := none
  geo : Option Str := none
  recurid : Option Str := none
  rrule : Option Str := none
  organizer : Option PersonProperty := none
  attendee : List PersonProperty := []
  categories : List Str := []
  comment : List Str := []
  contact : List Str := []
  attach : List Str := []
  exdate : List Str := []
  related : List Str := []
  resources : List Str := []
  rdate : List Str := []
  customProperties : List (Str × Str) := []
deriving DecidableEq, Repr

/-- One case of `parseEventBlock`'s `switch (prop.name)`: scalar fields
overwrite, repeatable fields append, `ATTENDEE`/`ORGANIZER` go through
`parsePersonProperty`, `CATEGORIES`/`EXDATE`/`RESOURCES`/`RDATE` through
`splitCommaSeparated`, unrecognised `X-` names land in `customProperties`,
and every other name falls through the `default:` branch unchanged. -/
def evStep (event : EventDraft) (prop : PropertyToken) : EventDraft :=
  if prop.name = str "UID" then { event with uid := some prop.value }
  else if prop.name = str "DTSTAMP" then { event with dtstamp := some prop.value }
  else if prop.name = str "DTSTART" then { event with dtstart := some prop.value }
  else if prop.name = str "DTEND" then { event with dtend := some prop.value }
  else if prop.name = str "DURATION" then { event with duration := some prop.value }
  else if prop.name = str "SUMMARY" then { event with summary := some prop.value }
  else if prop.name = str "DESCRIPTION" then { event with description := some prop.value }
  else if prop.name = str "LOCATION" then { event with location := some prop.value }
  else if prop.name = str "STATUS" then { event with status := some prop.value }
  else if prop.name = str "CLASS" then { event with cls := some prop.value }
  else if prop.name = str "TRANSP" then { event with transp := some prop.value }
  else if prop.name = str "PRIORITY" then { event with priority := some (jsParseInt prop.value) }
  else if prop.name = str "SEQUENCE" then { event with sequence := some (jsParseInt prop.value) }
  else if prop.name = str "CREATED" then { event with created := some prop.value }
  else if prop.name = str "LAST-MODIFIED" then { event with lastModified := some prop.value }
  else if prop.name = str "URL" then { event with url := some prop.value }
  else if prop.name = str "GEO" then { event with geo := some prop.value }
  else if prop.name = str "RECURID" then { event with recurid := some prop.value }
  else if prop.name = str "RRULE" then { event with rrule := some prop.value }
  else if prop.name = str "ORGANIZER" then
    { event with organizer := some (parsePersonProperty prop.value prop.parameters) }
  else if prop.name = str "ATTENDEE" then
    { event with attendee := event.attendee ++ [parsePersonProperty prop.value prop.parameters] }
  else if prop.name = str "CATEGORIES" then
    { event with categories := event.categories ++ splitCommaSeparated prop.value }
  else if prop.name = str "COMMENT" then { event with comment := event.comment ++ [prop.value] }
  else if prop.name = str "CONTACT" then { event with contact := event.contact ++ [prop.value] }
  else if prop.name = str "ATTACH" then { event with attach := event.attach ++ [prop.value] }
  else if prop.name = str "EXDATE" then
    { event with exdate := event.exdate ++ splitCommaSeparated prop.value }
  else if prop.name = str "RELATED" then { event with related := event.related ++ [prop.value] }
  else if prop.name = str "RESOURCES" then
    { event with resources := event.resources ++ splitCommaSeparated prop.value }
  else if prop.name = str "RDATE" then
    { event with rdate := event.rdate ++ splitCommaSeparated prop.value }
  else if (str "X-").isPrefixOf prop.name then
    { event with customProperties := objSet prop.name prop.value event.customProperties }
  else event

/-- The candidate record after `parseEventBlock`'s clean-up: each empty
repeatable array and an empty custom-property map are deleted (`none`),
non-empty ones stay present. -/
structure EventCandidate where
  uid : Option Str
  dtstamp : Option Str
  dtstart : Option Str
  dtend : Option Str
  duration : Option Str
  summary : Option Str
  description : Option Str
  location : Option Str
  status : Option Str
  cls : Option Str
  transp : Option Str
  priority : Option (Option Int)
  sequence : Option (Option Int)
  created : Option Str
  lastModified : Option Str
  url : Option Str
  geo : Option Str
  recurid : Option Str
  rrule : Option Str
  organizer : Option PersonProperty
  attendee : Option (List PersonProperty)
  categories : Option (List Str)
  comment : Option (List Str)
  contact : Option (List Str)
  attach : Option (List Str)
  exdate : Option (List Str)
  related : Option (List Str)
  resources : Option (List Str)
  rdate : Option (List Str)
  customProperties : Option (List (Str × Str))
deriving DecidableEq, Repr

/-- Keep a list only when non-empty (`if (xs.length === 0) delete xs`). -/
def keepNonEmpty {α : Type} (l : List α) : Option (List α) :=
  if l.isEmpty then none else some l

/-- The `delete`-based clean-up at the end of `parseEventBlock`. -/
def cleanupEvent (e : EventDraft) : EventCandidate :=
  { uid := e.uid, dtstamp := e.dtstamp, dtstart := e.dtstart, dtend := e.dtend
    duration := e.duration, summary := e.summary, description := e.description
    location := e.location, status := e.status, cls := e.cls, transp := e.transp
    priority := e.priority, sequence := e.sequence, created := e.created
    lastModified := e.lastModified, url := e.url, geo := e.geo, recurid := e.recurid
    rrule := e.rrule, organizer := e.organizer
    attendee := keepNonEmpty e.attendee
    categories := keepNonEmpty e.categories
    comment := keepNonEmpty e.comment
    contact := keepNonEmpty e.contact
    attach := keepNonEmpty e.attach
    exdate := keepNonEmpty e.exdate
    related := keepNonEmpty e.related
    resources := keepNonEmpty e.resources
    rdate := keepNonEmpty e.rdate
    customProperties := keepNonEmpty e.customProperties }

/-- The organizer record after validation: `organizerSchema` is a non-strict
`z.object({ email, commonName })`, so Zod strips the
`role`/`partstat`/`rsvp` keys that `parsePersonProperty` produced. -/
structure IcsOrganizer where
  email : Str
  commonName : Option Str
deriving DecidableEq, Repr

/-- A validated event, the output type of `icsEventSchema.parse`. -/
structure IcsEvent where
  uid : Str
  dtstamp : Str
  dtstart : Option Str
  dtend : Option Str
  duration : Option Str
  summary : Option Str
  description : Option Str
  location : Option Str
  status : Option Str
  cls : Option Str
  transp : Option Str
  priority : Option Int
  sequence : Option Int
  created : Option Str
  lastModified : Option Str
  url : Option Str
  geo : Option Str
  recurid : Option Str
  rrule : Option Str
  organizer : Option IcsOrganizer
  attendee : Option (List PersonProperty)
  categories : Option (List Str)
  comment : Option (List Str)
  contact : Option (List Str)
  attach : Option (List Str)
  exdate : Option (List Str)
  related : Option (List Str)
  resources : Option (List Str)
  rdate : Option (List Str)
  customProperties : Option (List (Str × Str))
deriving DecidableEq, Repr

/-- All checks of `refinedIcsEventSchema` on a candidate: required `uid`
(non-empty) and `dtstamp` (date-time), format regexes, enum membership,
numeric ranges, attendee/organizer email syntax, and the final refinement
that `dtend` and `duration` are not both present. -/
def eventCandidateOk (e : EventCandidate) : Bool :=
  (match e.uid with
   | some u => decide (1 ≤ u.length)
   | none => false) &&
  (match e.dtstamp with
   | some d => isDateTime d
   | none => false) &&
  optCheck isDateOrDateTime e.dtstart &&
  optCheck (classEnum.contains ·) e.cls &&
  optCheck isDateTime e.created &&
  optCheck isDateOrDateTime e.dtend &&
  optCheck isGeo e.geo &&
  optCheck isDateTime e.lastModified &&
  (match e.organizer with
   | some p => emailCheck p.email
   | none => true) &&
  numCheckRange 0 9 e.priority &&
  numCheckGe 0 e.sequence &&
  optCheck (eventStatusEnum.contains ·) e.status &&
  optCheck (transpEnum.contains ·) e.transp &&
  optCheck urlCheck e.url &&
  optCheck isDateOrDateTime e.recurid &&
  optCheck ((str "FREQ=").isPrefixOf ·) e.rrule &&
  (match e.attendee with
   | some l => l.all attendeeOk
   | none => true) &&
  (match e.exdate with
   | some l => l.all isDateOrDateTime
   | none => true) &&
  (match e.rdate with
   | some l => l.all isDateOrDateTime
   | none => true) &&
  !(e.dtend.isSome && e.duration.isSome)

/-- Model of `icsEventSchema.parse` (the refined schema): `none` models a
thrown `ZodError`; on success the organizer loses its unvalidated keys and
the numeric fields become plain integers. -/
def icsEventSchemaParse (e : EventCandidate) : Option IcsEvent :=
  if eventCandidateOk e then
    some
      { uid := e.uid.getD [], dtstamp := e.dtstamp.getD []
        dtstart := e.dtstart, dtend := e.dtend, duration := e.duration
        summary := e.summary, description := e.description, location := e.location
        status := e.status, cls := e.cls, transp := e.transp
        priority := e.priority.bind id, sequence := e.sequence.bind id
        created := e.created, lastModified := e.lastModified, url := e.url
        geo := e.geo, recurid := e.recurid, rrule := e.rrule
        organizer := e.organizer.map (fun p => ⟨p.email, p.commonName⟩)
        attendee := e.attendee, categories := e.categories, comment := e.comment
        contact := e.contact, attach := e.attach, exdate := e.exdate
        related := e.related, resources := e.resources, rdate := e.rdate
        customProperties := e.customProperties }
  else none

/-- Model of `parseEventBlock`: fold the property switch, clean up empty
arrays, validate; `none` models the thrown `ZodError` that
`parseCalendarBlock` catches. -/
def parseEventBlockOpt (block : ComponentBlock) : Option IcsEvent :=
  icsEventSchemaParse (cleanupEvent (block.properties.foldl evStep {}))

/-! ### Todo / Journal / FreeBusy / Timezone mappers -/

/-- The accumulator of `parseTodoBlock`. -/
structure TodoDraft where
  uid : Option Str := none
  dtstamp : Option Str := none
  summary : Option Str := none
  description : Option Str := none
  priority : Option (Option Int) := none
  status : Option Str := none
  due : Option Str := none
  completed : Option Str := none
  percentComplete : Option (Option Int) := none
  customProperties : List (Str × Str) := []
deriving DecidableEq, Repr

/-- A validated todo, the output type of `icsTodoSchema.parse`. -/
structure IcsTodo where
  uid : Str
  dtstamp : Str
  summary : Option Str
  description : Option Str
  priority : Option Int
  status : Option Str
  due : Option Str
  completed : Option Str
  percentComplete : Option Int
  customProperties : Option (List (Str × Str))
deriving DecidableEq, Repr

/-- One case of `parseTodoBlock`'s `switch`. -/
def todoStep (todo : TodoDraft) (prop : PropertyToken) : TodoDraft :=
  if prop.name = str "UID" then { todo with uid := some prop.value }
  else if prop.name = str "DTSTAMP" then { todo with dtstamp := some prop.value }
  else if prop.name = str "SUMMARY" then { todo with summary := some prop.value }
  else if prop.name = str "DESCRIPTION" then { todo with description := some prop.value }
  else if prop.name = str "PRIORITY" then { todo with priority := some (jsParseInt prop.value) }
  else if prop.name = str "STATUS" then { todo with status := some prop.value }
  else if prop.name = str "DUE" then { todo with due := some prop.value }
  else if prop.name = str "COMPLETED" then { todo with completed := some prop.value }
  else if prop.name = str "PERCENT-COMPLETE" then
    { todo with percentComplete := some (jsParseInt prop.value) }
  else if (str "X-").isPrefixOf prop.name then
    { todo with customProperties := objSet prop.name prop.value todo.customProperties }
  else todo

/-- `icsTodoSchema` checks: required `uid` and `dtstamp` (plain strings, no
format), `priority` 0–9, `percentComplete` 0–100, `status` in the todo
enumeration. -/
def todoDraftOk (t : TodoDraft) : Bool :=
  t.uid.isSome && t.dtstamp.isSome && numCheckRange 0 9 t.priority &&
    optCheck (todoStatusEnum.contains ·) t.status && numCheckRange 0 100 t.percentComplete

/-- Model of `parseTodoBlock` followed by the `z.array(icsTodoSchema)` check
that `icsCalendarSchema.parse` applies: the mapper itself never throws, so
validation happens when the calendar record is parsed; modelling it at block
level keeps `calendar.todos` a list of validated records, which is the shape
the final `ParseResult` exposes. -/
def parseTodoBlockOpt (block : ComponentBlock) : Option IcsTodo :=
  let t := block.properties.foldl todoStep {}
  if todoDraftOk t then
    some
      { uid := t.uid.getD [], dtstamp := t.dtstamp.getD [], summary := t.summary
        description := t.description, priority := t.priority.bind id, status := t.status
        due := t.due, completed := t.completed, percentComplete := t.percentComplete.bind id
        customProperties := keepNonEmpty t.customProperties }
  else none

/-- The accumulator of `parseJournalBlock`. -/
structure JournalDraft where
  uid : Option Str := none
  dtstamp : Option Str := none
  summary : Option Str := none
  description : Option Str := none
  dtstart : Option Str := none
  customProperties : List (Str × Str) := []
deriving DecidableEq, Repr

/-- A validated journal entry. -/
structure IcsJournal where
  uid : Str
  dtstamp : Str
  summary : Option Str
  description : Option Str
  dtstart : Option Str
  customProperties : Option (List (Str × Str))
deriving DecidableEq, Repr

/-- One case of `parseJournalBlock`'s `switch`. -/
def journalStep (journal : JournalDraft) (prop : PropertyToken) : JournalDraft :=
  if prop.name = str "UID" then { journal with uid := some prop.value }
  else if prop.name = str "DTSTAMP" then { journal with dtstamp := some prop.value }
  else if prop.name = str "SUMMARY" then { journal with summary := some prop.value }
  else if prop.name = str "DESCRIPTION" then { journal with description := some prop.value }
  else if prop.name = str "DTSTART" then { journal with dtstart := some prop.value }
  else if (str "X-").isPrefixOf prop.name then
    { journal with customProperties := objSet prop.name prop.value journal.customProperties }
  else journal

/-- Model of `parseJournalBlock` plus the `icsJournalSchema` check (which only
requires `uid` and `dtstamp` to be present; all other fields are free
strings). -/
def parseJournalBlockOpt (block : ComponentBlock) : Option IcsJournal :=
  let j := block.properties.foldl journalStep {}
  if j.uid.isSome && j.dtstamp.isSome then
    some
      { uid := j.uid.getD [], dtstamp := j.dtstamp.getD [], summary := j.summary
        description := j.description, dtstart := j.dtstart
        customProperties := keepNonEmpty j.customProperties }
  else none

/-- The accumulator of `parseFreebusyBlock`. -/
structure FreeBusyDraft where
  uid : Option Str := none
  dtstamp : Option Str := none
  organizer : Option Str := none
  dtstart : Option Str := none
  dtend : Option Str := none
  freebusy : List Str := []
  customProperties : List (Str × Str) := []
deriving DecidableEq, Repr

/-- A validated free/busy entry (the `ORGANIZER` raw value is kept as a plain
string here, unlike events). -/
structure IcsFreeBusy where
  uid : Str
  dtstamp : Str
  organizer : Option Str
  dtstart : Option Str
  dtend : Option Str
  freebusy : Option (List Str)
  customProperties : Option (List (Str × Str))
deriving DecidableEq, Repr

/-- One case of `parseFreebusyBlock`'s `switch`. -/
def freebusyStep (fb : FreeBusyDraft) (prop : PropertyToken) : FreeBusyDraft :=
  if prop.name = str "UID" then { fb with uid := some prop.value }
  else if prop.name = str "DTSTAMP" then { fb with dtstamp := some prop.value }
  else if prop.name = str "ORGANIZER" then { fb with organizer := some prop.value }
  else if prop.name = str "DTSTART" then { fb with dtstart := some prop.value }
  else if prop.name = str "DTEND" then { fb with dtend := some prop.value }
  else if prop.name = str "FREEBUSY" then { fb with freebusy := fb.freebusy ++ [prop.value] }
  else if (str "X-").isPrefixOf prop.name then
    { fb with customProperties := objSet prop.name prop.value fb.customProperties }
  else fb

/-- Model of `parseFreebusyBlock` plus the `icsFreebusySchema` check (required
`uid`/`dtstamp`, everything else free strings). -/
def parseFreebusyBlockOpt (block : ComponentBlock) : Option IcsFreeBusy :=
  let f := block.properties.foldl freebusyStep {}
  if f.uid.isSome && f.dtstamp.isSome then
    some
      { uid := f.uid.getD [], dtstamp := f.dtstamp.getD [], organizer := f.organizer
        dtstart := f.dtstart, dtend := f.dtend, freebusy := keepNonEmpty f.freebusy
        customProperties := keepNonEmpty f.customProperties }
  else none

/-- A timezone record: `tzid` plus the verbatim `NAME:VALUE` serialization. -/
structure IcsTimezone where
  tzid : Str
  rawData : Str
deriving DecidableEq, Repr

/-- Model of `parseTimezoneBlock`: extract `TZID` (last occurrence wins,
starting from `""`), serialize every property as `NAME:VALUE`, then each
sub-component as `BEGIN:<T>`, its properties, `END:<T>`, joined by LF.  It
never throws, and `icsTimezoneSchema` (two plain strings) always accepts. -/
def parseTimezoneBlock (block : ComponentBlock) : IcsTimezone :=
  let tzid := block.properties.foldl
    (fun acc p => if p.name = str "TZID" then p.value else acc) []
  let propLines := block.properties.map (fun p => p.name ++ ':' :: p.value)
  let subLines := block.subComponents.flatMap
    (fun sc =>
      (str "BEGIN:" ++ sc.type) ::
        (sc.properties.map (fun p => p.name ++ ':' :: p.value) ++ [str "END:" ++ sc.type]))
  { tzid := tzid, rawData := joinSep ['\n'] (propLines ++ subLines) }

/-! ### Calendar mapper (`parseCalendarBlock`) and `JSON.stringify` -/

/-- JSON string escaping as in `JSON.stringify`: quote, backslash and the
named control characters get two-character escapes, other control characters
a `\u00XX` escape. -/
def jsonEscapeChar (c : Char) : Str :=
  if c = '"' then str "\\\""
  else if c = '\\' then str "\\\\"
  else if c = '\n' then str "\\n"
  else if c = '\r' then str "\\r"
  else if c = '\t' then str "\\t"
  else if c = '\x08' then str "\\b"
  else if c = '\x0c' then str "\\f"
  else if c.toNat < 0x20 then
    str "\\u00" ++ [(Nat.digitChar (c.toNat / 16)), (Nat.digitChar (c.toNat % 16))]
  else [c]

/-- A JSON string literal. -/
def jsonStr (s : Str) : Str := '"' :: (s.flatMap jsonEscapeChar ++ ['"'])

/-- `JSON.stringify` of a parameter map (insertion order preserved). -/
def jsonParams (parameters : List (Str × Str)) : Str :=
  '\x7b' :: (joinSep [','] (parameters.map (fun kv => jsonStr kv.1 ++ ':' :: jsonStr kv.2)) ++ ['\x7d'])

/-- `JSON.stringify` of a property token (`name`, `parameters`, `value` in
creation order). -/
def jsonProp (p : PropertyToken) : Str :=
  str "\x7b\"name\":" ++ jsonStr p.name ++ str ",\"parameters\":" ++ jsonParams p.parameters ++
    str ",\"value\":" ++ jsonStr p.value ++ [(Char.ofNat 0x7d)]

mutual

/-- `JSON.stringify(block)`: keys in creation order `type`, `properties`,
`subComponents` — the `rawData` stored for unrecognised sub-components. -/
def jsonStringifyBlock : ComponentBlock → Str
  | .mk t props subs =>
    str "\x7b\"type\":" ++ jsonStr t ++ str ",\"properties\":[" ++
      joinSep [','] (props.map jsonProp) ++ str "],\"subComponents\":[" ++
      jsonStringifyBlocks subs ++ str "]\x7d"

/-- Comma-joined serialization of a block list. -/
def jsonStringifyBlocks : List ComponentBlock → Str
  | [] => []
  | [b] => jsonStringifyBlock b
  | b :: rest => jsonStringifyBlock b ++ ',' :: jsonStringifyBlocks rest

end

/-- The `Partial<IcsCalendar>` accumulated by `parseCalendarBlock`. -/
structure CalendarDraft where
  version : Option Str := none
  prodid : Option Str := none
  calscale : Option Str := none
  method : Option Str := none
  calname : Option Str := none
  caldesc : Option Str := none
  timezone : Option Str := none
  refreshInterval : Option Str := none
  events : List IcsEvent := []
  todos : List IcsTodo := []
  journals : List IcsJournal := []
  freebusys : List IcsFreeBusy := []
  timezones : List IcsTimezone := []
  unparsedComponents : List (Str × Str) := []
  customProperties : List (Str × Str) := []
deriving DecidableEq, Repr

/-- A validated calendar, the output type of `icsCalendarSchema.parse`.
`customProperties` is always initialised to `{}` by the mapper and never
deleted, so it is kept as a plain list. -/
structure IcsCalendar where
  version : Str
  prodid : Str
  calscale : Option Str
  method : Option Str
  calname : Option Str
  caldesc : Option Str
  timezone : Option Str
  refreshInterval : Option Str
  events : List IcsEvent
  todos : List IcsTodo
  journals : List IcsJournal
  freebusys : List IcsFreeBusy
  timezones : List IcsTimezone
  unparsedComponents : List (Str × Str)
  customProperties : List (Str × Str)
deriving DecidableEq, Repr

/-- One case of `parseCalendarBlock`'s property `switch`. -/
def calStep (cal : CalendarDraft) (prop : PropertyToken) : CalendarDraft :=
  if prop.name = str "VERSION" then { cal with version := some prop.value }
  else if prop.name = str "PRODID" then { cal with prodid := some prop.value }
  else if prop.name = str "CALSCALE" then { cal with calscale := some prop.value }
  else if prop.name = str "METHOD" then { cal with method := some prop.value }
  else if prop.name = str "X-WR-CALNAME" then { cal with calname := some prop.value }
  else if prop.name = str "X-WR-CALDESC" then { cal with caldesc := some prop.value }
  else if prop.name = str "X-WR-TIMEZONE" then { cal with timezone := some prop.value }
  else if prop.name = str "X-PUBLISHED-TTL" ∨ prop.name = str "REFRESH-INTERVAL" then
    { cal with refreshInterval := some prop.value }
  else if (str "X-").isPrefixOf prop.name then
    { cal with customProperties := objSet prop.name prop.value cal.customProperties }
  else cal

/-- One case of `parseCalendarBlock`'s sub-component `switch`: recognised
component kinds whose mapper/validation fails are skipped (the source catches
the error and at most logs it under debug — nothing is recorded in the
result); unknown kinds are preserved as `(type, JSON.stringify(block))`. -/
def calSubStep (cal : CalendarDraft) (sub : ComponentBlock) : CalendarDraft :=
  if sub.type = str "VEVENT" then
    match parseEventBlockOpt sub with
    | some ev => { cal with events := cal.events ++ [ev] }
    | none => cal
  else if sub.type = str "VTODO" then
    match parseTodoBlockOpt sub with
    | some td => { cal with todos := cal.todos ++ [td] }
    | none => cal
  else if sub.type = str "VJOURNAL" then
    match parseJournalBlockOpt sub with
    | some j => { cal with journals := cal.journals ++ [j] }
    | none => cal
  else if sub.type = str "VFREEBUSY" then
    match parseFreebusyBlockOpt sub with
    | some f => { cal with freebusys := cal.freebusys ++ [f] }
    | none => cal
  else if sub.type = str "VTIMEZONE" then
    { cal with timezones := cal.timezones ++ [parseTimezoneBlock sub] }
  else
    { cal with unparsedComponents := cal.unparsedComponents ++ [(sub.type, jsonStringifyBlock sub)] }

/-- Revalidation of an already-validated event by `z.array(icsEventSchema)`
inside `icsCalendarSchema.parse` (the same checks, on the output shape). -/
def icsEventCheck (ev : IcsEvent) : Bool :=
  decide (1 ≤ ev.uid.length) && isDateTime ev.dtstamp &&
  optCheck isDateOrDateTime ev.dtstart &&
  optCheck (classEnum.contains ·) ev.cls &&
  optCheck isDateTime ev.created &&
  optCheck isDateOrDateTime ev.dtend &&
  optCheck isGeo ev.geo &&
  optCheck isDateTime ev.lastModified &&
  (match ev.organizer with
   | some o => emailCheck o.email
   | none => true) &&
  (match ev.priority with
   | some n => decide (0 ≤ n ∧ n ≤ 9)
   | none => true) &&
  (match ev.sequence with
   | some n => decide (0 ≤ n)
   | none => true) &&
  optCheck (eventStatusEnum.contains ·) ev.status &&
  optCheck (transpEnum.contains ·) ev.transp &&
  optCheck urlCheck ev.url &&
  optCheck isDateOrDateTime ev.recurid &&
  optCheck ((str "FREQ=").isPrefixOf ·) ev.rrule &&
  (match ev.attendee with
   | some l => l.all attendeeOk
   | none => true) &&
  (match ev.exdate with
   | some l => l.all isDateOrDateTime
   | none => true) &&
  (match ev.rdate with
   | some l => l.all isDateOrDateTime
   | none => true) &&
  !(ev.dtend.isSome && ev.duration.isSome)

/-- Revalidation of an already-validated todo by `z.array(icsTodoSchema)`. -/
def icsTodoCheck (t : IcsTodo) : Bool :=
  (match t.priority with
   | some n => decide (0 ≤ n ∧ n ≤ 9)
   | none => true) &&
  optCheck (todoStatusEnum.contains ·) t.status &&
  (match t.percentComplete with
   | some n => decide (0 ≤ n ∧ n ≤ 100)
   | none => true)

/-- `icsCalendarSchema.parse` on the calendar candidate: required literal
`version == "2.0"`, non-empty `prodid`, optional `calscale`/`method` enum
membership, and elementwise revalidation of the component arrays (journal,
free/busy and timezone revalidation impose no constraints beyond the typed
shape, which already holds).  `none` models the thrown `ZodError`. -/
def icsCalendarSchemaParse (c : CalendarDraft) : Option IcsCalendar :=
  if c.version = some (str "2.0") &&
      (match c.prodid with
       | some p => decide (1 ≤ p.length)
       | none => false) &&
      optCheck (calscaleEnum.contains ·) c.calscale &&
      optCheck (methodEnum.contains ·) c.method &&
      c.events.all icsEventCheck && c.todos.all icsTodoCheck then
    some
      { version := (c.version.getD []), prodid := c.prodid.getD []
        calscale := c.calscale, method := c.method, calname := c.calname
        caldesc := c.caldesc, timezone := c.timezone, refreshInterval := c.refreshInterval
        events := c.events, todos := c.todos, journals := c.journals
        freebusys := c.freebusys, timezones := c.timezones
        unparsedComponents := c.unparsedComponents, customProperties := c.customProperties }
  else none

/-- Model of `parseCalendarBlock`: fold the property and sub-component
switches, then validate with `icsCalendarSchema.parse`.  `none` models the
thrown `ZodError` (the only exception that can escape, since each
sub-component parse is wrapped in its own `try`/`catch`).  `debug` only gates
`console.warn` calls. -/
def parseCalendarBlockE (debug : Bool) (block : ComponentBlock) : Option IcsCalendar :=
  icsCalendarSchemaParse
    (block.subComponents.foldl calSubStep (block.properties.foldl calStep {}))

/-! ### Top level (`parseIcsData`) -/

/-- The `metadata` object of a `ParsedIcsData`. -/
structure ParseMetadata where
  totalEvents : Nat
  totalTodos : Nat
  totalJournals : Nat
  totalFreebusys : Nat
  totalTimezones : Nat
  parseErrors : List Str
  parseWarnings : List Str
deriving DecidableEq, Repr

/-- The `ParsedIcsData` result of `parseIcsData`. -/
structure ParsedIcsData where
  calendars : List IcsCalendar
  metadata : ParseMetadata
deriving DecidableEq, Repr

/-- Placeholder for the `message` of a thrown `ZodError` (a JSON rendering of
the issue list, whose exact text is not modelled; no claim depends on it —
only on whether and where an error string is appended). -/
def zodErrorMessage : Str := str "<zod validation error>"

/-- The step-3 loop of `parseIcsData` over root blocks, threading
`(calendars, errors, warnings)`: a `VCALENDAR` root is parsed (a failure
appends `Failed to parse calendar: ...` to the errors), any other root type
appends an `Unexpected root component: ...` warning. -/
def rootStep (debug : Bool) (acc : List IcsCalendar × List Str × List Str)
    (block : ComponentBlock) : List IcsCalendar × List Str × List Str :=
  if block.type = str "VCALENDAR" then
    match parseCalendarBlockE debug block with
    | some cal => (acc.1 ++ [cal], acc.2.1, acc.2.2)
    | none => (acc.1, acc.2.1 ++ [str "Failed to parse calendar: " ++ zodErrorMessage], acc.2.2)
  else (acc.1, acc.2.1, acc.2.2 ++ [str "Unexpected root component: " ++ block.type])

/-- Model of the default-exported `parseIcsData(data, debug)`: unfold lines,
build the block tree, process the roots and compute the summary metadata.
The fatal path — the `Unclosed components` exception thrown by
`parseIntoBlocks`, the only exception reachable inside the outer `try` — is
caught and turned into an empty result carrying a single
`Critical parsing error: ...` string (at that point no error or warning has
been recorded yet, since the throw happens before the root loop).  The
`debug` flag gates `console` tracing only and is threaded to the helpers
exactly as in the source. -/
def parseIcsData (data : String) (debug : Bool) : ParsedIcsData :=
  match parseIntoBlocks debug (unfoldLinesL data.data) with
  | .error msg =>
    { calendars := []
      metadata :=
        { totalEvents := 0, totalTodos := 0, totalJournals := 0
          totalFreebusys := 0, totalTimezones := 0
          parseErrors := [str "Critical parsing error: " ++ msg]
          parseWarnings := [] } }
  | .ok rootBlocks =>
    let acc := rootBlocks.foldl (rootStep debug) ([], [], [])
    { calendars := acc.1
      metadata :=
        { totalEvents := acc.1.foldl (fun sum cal => sum + cal.events.length) 0
          totalTodos := acc.1.foldl (fun sum cal => sum + cal.todos.length) 0
          totalJournals := acc.1.foldl (fun sum cal => sum + cal.journals.length) 0
          totalFreebusys := acc.1.foldl (fun sum cal => sum + cal.freebusys.length) 0
          totalTimezones := acc.1.foldl (fun sum cal => sum + cal.timezones.length) 0
          parseErrors := acc.2.1
          parseWarnings := acc.2.2 } }

/-! ## Claims -/

/-- Folding an addition of per-element weights equals the sum of the mapped
weights (connects the source's `reduce((sum, cal) => sum + ..., 0)` to the
specification's sum). -/
theorem foldl_add_eq_sum_map {α : Type} (f : α → Nat) (L : List α) (n : Nat) :
    L.foldl (fun sum c => sum + f c) n = n + (L.map f).sum := by
  induction L generalizing n with
  | nil => simp
  | cons a t ih => simp [ih, Nat.add_assoc]

/-- Claim C1: when the block structure leaves an unclosed component at end of
input — exactly the case in which `parseIntoBlocks` throws, its only
exception being the terminal `Unclosed components` check — `parseIcsData`
does not raise: it returns a `ParseResult` with no calendars, all five totals
zero, and the single error string `Critical parsing error: <message>` in
`metadata.parseErrors` (nothing had been recorded before the throw, which
happens before any calendar is processed). -/
theorem claim_C1_unclosed_fatal (s : String) (debug : Bool) (msg : Str)
    (h : parseIntoBlocks debug (unfoldLinesL s.data) = .error msg) :
    parseIcsData s debug =
      { calendars := []
        metadata :=
          { totalEvents := 0, totalTodos := 0, totalJournals := 0
            totalFreebusys := 0, totalTimezones := 0
            parseErrors := [str "Critical parsing error: " ++ msg]
            parseWarnings := [] } } := by
  simp [parseIcsData, h]

/-- Witness for C1: a `VCALENDAR` whose `VEVENT` is never closed (the
`END:VCALENDAR` is skipped as a mismatched end, leaving both components
open). -/
theorem claim_C1_unclosed_fatal_witness :
    parseIntoBlocks false
        (unfoldLinesL (String.data "BEGIN:VCALENDAR\nBEGIN:VEVENT\nEND:VCALENDAR")) =
      .error (str "Unclosed components: VCALENDAR, VEVENT") ∧
    parseIcsData "BEGIN:VCALENDAR\nBEGIN:VEVENT\nEND:VCALENDAR" false =
      { calendars := []
        metadata :=
          { totalEvents := 0, totalTodos := 0, totalJournals := 0
            totalFreebusys := 0, totalTimezones := 0
            parseErrors := [str "Critical parsing error: Unclosed components: VCALENDAR, VEVENT"]
            parseWarnings := [] } } :=
  ⟨rfl,
   claim_C1_unclosed_fatal "BEGIN:VCALENDAR\nBEGIN:VEVENT\nEND:VCALENDAR" false
     (str "Unclosed components: VCALENDAR, VEVENT") rfl⟩

/-- Claim C2: for every input and debug setting, each of the five totals in
the returned metadata equals the sum over the returned calendars of the
length of the corresponding component sequence. -/
theorem claim_C2_metadata_totals (s : String) (debug : Bool) :
    (parseIcsData s debug).metadata.totalEvents =
      ((parseIcsData s debug).calendars.map (fun cal => cal.events.length)).sum ∧
    (parseIcsData s debug).metadata.totalTodos =
      ((parseIcsData s debug).calendars.map (fun cal => cal.todos.length)).sum ∧
    (parseIcsData s debug).metadata.totalJournals =
      ((parseIcsData s debug).calendars.map (fun cal => cal.journals.length)).sum ∧
    (parseIcsData s debug).metadata.totalFreebusys =
      ((parseIcsData s debug).calendars.map (fun cal => cal.freebusys.length)).sum ∧
    (parseIcsData s debug).metadata.totalTimezones =
      ((parseIcsData s debug).calendars.map (fun cal => cal.timezones.length)).sum := by
  rcases h : parseIntoBlocks debug (unfoldLinesL s.data) with msg | rootBlocks <;>
    simp [parseIcsData, h, foldl_add_eq_sum_map]

/-- `jsIndexOf` misses: a character that does not occur is never found
(`indexOf` returns `-1`). -/
theorem jsIndexOf_eq_none {c : Char} : ∀ {l : Str}, c ∉ l → jsIndexOf c l = none := by
  intro l h
  induction l with
  | nil => rfl
  | cons x r ih =>
    simp only [List.mem_cons, not_or] at h
    simp [jsIndexOf, Ne.symm h.1, ih h.2]

/-- `jsIndexOf` finds the first occurrence: prepending characters different
from the needle shifts the index to the prefix length. -/
theorem jsIndexOf_append {c : Char} : ∀ (pre : Str) (post : Str), c ∉ pre →
    jsIndexOf c (pre ++ c :: post) = some pre.length := by
  intro pre post h
  induction pre with
  | nil => simp [jsIndexOf]
  | cons x r ih =>
    simp only [List.mem_cons, not_or] at h
    simp [jsIndexOf, Ne.symm h.1, ih h.2]

/-- Dropping one past the prefix of an append with a distinguished middle
character yields the suffix. -/
theorem drop_length_succ_append (c : Char) : ∀ (pre post : Str),
    (pre ++ c :: post).drop (pre.length + 1) = post := by
  intro pre post
  induction pre with
  | nil => simp
  | cons x r ih => simp [ih]

/-- Taking the prefix length of an append yields the prefix. -/
theorem take_length_append (c : Char) : ∀ (pre post : Str),
    (pre ++ c :: post).take pre.length = pre := by
  intro pre post
  induction pre with
  | nil => simp
  | cons x r ih => simp [ih]

/-- Claim C3, amended: `parsePropertyLine` splits the line at the first colon
regardless of escaping — writing the line as `pre ++ ":" ++ post` with no
colon in `pre`, the segment `pre` becomes the name;params part and `post` the
raw value — and it fails with the malformed-property-line error exactly when
the line contains no colon at all (not: no unescaped colon). -/
theorem claim_C3_first_colon_split :
    (∀ line : Str, ':' ∉ line →
        parsePropertyLineE line = .error (str "Invalid property line: " ++ line)) ∧
    (∀ pre post : Str, ':' ∉ pre →
        parsePropertyLineE (pre ++ ':' :: post) = .ok (tokenOfSegments pre post)) := by
  constructor
  · intro line h
    simp [parsePropertyLineE, jsIndexOf_eq_none h]
  · intro pre post h
    simp only [parsePropertyLineE, jsIndexOf_append pre post h, tokenOfSegments,
      take_length_append, drop_length_succ_append]
    cases jsIndexOf ';' pre <;> rfl

/-- Witness for the amended C3 at `SUMMARY:Hello`. -/
theorem claim_C3_first_colon_split_witness :
    (':' ∉ str "SUMMARY") ∧
    parsePropertyLineE (str "SUMMARY" ++ ':' :: str "Hello") =
      .ok (tokenOfSegments (str "SUMMARY") (str "Hello")) :=
  ⟨by decide, claim_C3_first_colon_split.2 (str "SUMMARY") (str "Hello") (by decide)⟩

/-- Claim C3, counterexample: in the line `A\:b` the only colon is preceded
by a backslash, so under the claim the parse should fail with the
malformed-property-line condition; `parsePropertyLine` nevertheless succeeds,
splitting at that colon (`line.indexOf(":")` ignores escaping), with name
segment `A\` and value `b`. -/
theorem claim_C3_counterexample :
    parsePropertyLineE (str "A\\:b") =
      .ok { name := str "A\\", parameters := [], value := str "b" } := rfl

/-- A two-character replace scan whose pattern never starts is the
identity. -/
theorem jsReplace2_cons (a b r x : Char) (t : Str) (hx : x ≠ a) :
    jsReplace2 a b r (x :: t) = x :: jsReplace2 a b r t := by
  rcases t with _ | ⟨y, rest⟩
  · rfl
  · simp [jsReplace2, hx]

/-- A replace scan for a pattern starting with an absent character is the
identity. -/
theorem jsReplace2_of_not_mem (a b r : Char) (l : Str) (h : a ∉ l) :
    jsReplace2 a b r l = l := by
  induction l with
  | nil => rfl
  | cons x t ih =>
    simp only [List.mem_cons, not_or] at h
    rw [jsReplace2_cons a b r x t (Ne.symm h.1), ih h.2]

/-- The first half of claim C4 does hold: on a value with no backslashes all
six replace passes of `unescapeValue` are the identity. -/
theorem unescapeValue_of_no_backslash (l : Str) (h : '\\' ∉ l) :
    unescapeValueL l = l := by
  unfold unescapeValueL
  rw [jsReplace2_of_not_mem _ _ _ _ h, jsReplace2_of_not_mem _ _ _ _ h,
    jsReplace2_of_not_mem _ _ _ _ h, jsReplace2_of_not_mem _ _ _ _ h,
    jsReplace2_of_not_mem _ _ _ _ h, jsReplace2_of_not_mem _ _ _ _ h]

/-- Claim C4, behaviour at the failing input (status: code bug): escaping the
two-character value backslash-`n` (doubling the backslash) and then decoding
with `unescapeValue` yields backslash-newline, not the original — the
sequential `replace(/\\n/g, "\n")` pass runs before the `replace(/\\\\/g, "\\")`
pass and re-interprets the second half of the doubled backslash together with
the following `n`, so decoding is not the single left-to-right pass the
specification requires.  (On values without backslashes `unescapeValue` is
the identity, as the first half of the claim states; the round-trip half
fails.) -/
theorem claim_C4_roundtrip_eval :
    escapeValueSpec (str "\\n") = str "\\\\n" ∧
    unescapeValueL (escapeValueSpec (str "\\n")) = str "\\\n" ∧
    str "\\\n" ≠ str "\\n" := by
  refine ⟨rfl, rfl, ?_⟩
  decide

/-- Claim C5, behaviour at the failing input (status: code bug): in the full
pipeline the property value is already escape-decoded by `parsePropertyLine`
(turning `Work\,Fun,Travel` into `Work,Fun,Travel`) before `parseEventBlock`
hands it to the escape-aware `splitCommaSeparated`, so the event's categories
come out as `["Work", "Fun", "Travel"]` — not the `["Work,Fun", "Travel"]`
the claim (and `splitCommaSeparated` applied to the raw value, second
conjunct) produce. -/
theorem claim_C5_categories_eval :
    (parseIcsData "BEGIN:VCALENDAR\nVERSION:2.0\nPRODID:test\nBEGIN:VEVENT\nUID:1\nDTSTAMP:20230101T000000Z\nCATEGORIES:Work\\,Fun,Travel\nEND:VEVENT\nEND:VCALENDAR" false).calendars.map
        (fun cal => cal.events.map (fun ev => ev.categories)) =
      [[some [str "Work", str "Fun", str "Travel"]]] ∧
    splitCommaSeparated (str "Work\\,Fun,Travel") = [str "Work,Fun", str "Travel"] :=
  ⟨rfl, rfl⟩

/-- Claim C6, counterexample: an otherwise valid event carrying both `DTEND`
and `DURATION` is dropped from its calendar's `events` (first conjunct), but
`metadata.parseWarnings` stays empty (second conjunct) — the `catch` in
`parseCalendarBlock` only `console.warn`s under debug and records nothing in
the result, contradicting the claim's "appends a descriptive warning string
to the returned metadata.parseWarnings". -/
theorem claim_C6_counterexample :
    (parseIcsData "BEGIN:VCALENDAR\nVERSION:2.0\nPRODID:test\nBEGIN:VEVENT\nUID:1\nDTSTAMP:20230101T000000Z\nDTEND:20230102\nDURATION:PT1H\nEND:VEVENT\nEND:VCALENDAR" false).calendars.map
        (fun cal => cal.events) = [[]] ∧
    (parseIcsData "BEGIN:VCALENDAR\nVERSION:2.0\nPRODID:test\nBEGIN:VEVENT\nUID:1\nDTSTAMP:20230101T000000Z\nDTEND:20230102\nDURATION:PT1H\nEND:VEVENT\nEND:VCALENDAR" false).metadata.parseWarnings =
      [] :=
  ⟨rfl, rfl⟩

/-- Claim C7, counterexample: for the whitespace-only line `L = " "` (which
contains no line-break characters), folding at offset 0 and unfolding yields
`[]` — the blank-line filter at the end of `unfoldLines` drops the line — not
the single line `[L]` the claim requires for every line. -/
theorem claim_C7_counterexample :
    unfoldLinesL ((str " ").take 0 ++ '\r' :: '\n' :: ' ' :: (str " ").drop 0) = [] ∧
    ([] : List Str) ≠ [str " "] := by
  refine ⟨rfl, ?_⟩
  decide

/-- A character other than CR passes through the CRLF-fold scan. -/
theorem removeCrlfFold_cons (c : Char) (t : Str) (hc : c ≠ '\r') :
    removeCrlfFold (c :: t) = c :: removeCrlfFold t := by
  rcases t with _ | ⟨d, _ | ⟨e, rest⟩⟩
  · rfl
  · rfl
  · simp [removeCrlfFold, hc]

/-- The CRLF-fold scan passes over a CR-free prefix. -/
theorem removeCrlfFold_append (A xs : Str) (h : '\r' ∉ A) :
    removeCrlfFold (A ++ xs) = A ++ removeCrlfFold xs := by
  induction A with
  | nil => rfl
  | cons a A ih =>
    simp only [List.mem_cons, not_or] at h
    simp only [List.cons_append]
    rw [removeCrlfFold_cons a (A ++ xs) (Ne.symm h.1), ih h.2]

/-- The CRLF-fold scan is the identity on CR-free strings. -/
theorem removeCrlfFold_of_no_cr (l : Str) (h : '\r' ∉ l) : removeCrlfFold l = l := by
  have := removeCrlfFold_append l [] h
  simpa [show removeCrlfFold ([] : Str) = [] from rfl] using this

/-- A character other than LF passes through the LF-fold scan. -/
theorem removeLfFold_cons (c : Char) (t : Str) (hc : c ≠ '\n') :
    removeLfFold (c :: t) = c :: removeLfFold t := by
  rcases t with _ | ⟨d, rest⟩
  · rfl
  · simp [removeLfFold, hc]

/-- The LF-fold scan is the identity on LF-free strings. -/
theorem removeLfFold_of_no_lf (l : Str) (h : '\n' ∉ l) : removeLfFold l = l := by
  induction l with
  | nil => rfl
  | cons c rest ih =>
    simp only [List.mem_cons, not_or] at h
    rw [removeLfFold_cons c rest (Ne.symm h.1), ih h.2]

/-- A character other than CR passes through the line-ending normalisation. -/
theorem normalizeEol_cons (c : Char) (t : Str) (hc : c ≠ '\r') :
    normalizeEol (c :: t) = c :: normalizeEol t := by
  rcases t with _ | ⟨d, rest⟩
  · rfl
  · simp [normalizeEol, hc]

/-- Line-ending normalisation is the identity on CR-free strings. -/
theorem normalizeEol_of_no_cr (l : Str) (h : '\r' ∉ l) : normalizeEol l = l := by
  induction l with
  | nil => rfl
  | cons c rest ih =>
    simp only [List.mem_cons, not_or] at h
    rw [normalizeEol_cons c rest (Ne.symm h.1), ih h.2]

/-- Splitting on a separator that does not occur yields the single segment. -/
theorem splitOnChar_of_not_mem (sep : Char) (l : Str) (h : sep ∉ l) :
    splitOnChar sep l = [l] := by
  induction l with
  | nil => rfl
  | cons c rest ih =>
    simp only [List.mem_cons, not_or] at h
    simp [splitOnChar, ih h.2, Ne.symm h.1]

/-- Claim C7, amended: for every line `L` containing no CR or LF whose trim
is non-empty (blank lines are dropped by `unfoldLines`, which is what the
counterexample exhibits), folding `L` by inserting CRLF plus a single space
at any offset `i` within the line and unfolding reproduces exactly `[L]`. -/
theorem claim_C7_fold_roundtrip (L : Str) (i : Nat)
    (hcr : '\r' ∉ L) (hlf : '\n' ∉ L)
    (htrim : (jsTrim L).isEmpty = false) (hi : i ≤ L.length) :
    unfoldLinesL (L.take i ++ '\r' :: '\n' :: ' ' :: L.drop i) = [L] := by
  have hA : '\r' ∉ L.take i := fun hm => hcr (List.take_subset i L hm)
  have hB : '\r' ∉ L.drop i := fun hm => hcr (List.drop_subset i L hm)
  have h1 : removeCrlfFold (L.take i ++ '\r' :: '\n' :: ' ' :: L.drop i) =
      L.take i ++ L.drop i := by
    rw [removeCrlfFold_append _ _ hA,
      show removeCrlfFold ('\r' :: '\n' :: ' ' :: L.drop i) = removeCrlfFold (L.drop i) by
        simp [removeCrlfFold],
      removeCrlfFold_of_no_cr _ hB]
  unfold unfoldLinesL
  rw [h1, List.take_append_drop, removeLfFold_of_no_lf _ hlf, normalizeEol_of_no_cr _ hcr,
    splitOnChar_of_not_mem _ _ hlf]
  simp [htrim]

/-- Witness for the amended C7: folding `HELLO WORLD` at offset 5. -/
theorem claim_C7_fold_roundtrip_witness :
    unfoldLinesL ((str "HELLO WORLD").take 5 ++ '\r' :: '\n' :: ' ' :: (str "HELLO WORLD").drop 5) =
      [str "HELLO WORLD"] :=
  claim_C7_fold_roundtrip (str "HELLO WORLD") 5 (by decide) (by decide) (by decide)
    (by decide)

/-- Claim C8: the debug toggle never alters the returned `ParseResult`: in
the source every `if (debug)` block only emits `console` tracing, so the
value computation is independent of the flag (in the model the flag is
threaded through `parseIcsData`, `parseIntoBlocks`, `parseCalendarBlock`
exactly as in the source and the two results are definitionally equal). -/
theorem claim_C8_debug_no_effect (s : String) :
    parseIcsData s true = parseIcsData s false := rfl

/-- No case of `parseEventBlock`'s `switch` ever clears an already-set
`dtend`. -/
theorem evStep_dtend_isSome (e : EventDraft) (p : PropertyToken)
    (h : e.dtend.isSome) : (evStep e p).dtend.isSome := by
  unfold evStep
  by_cases c1 : p.name = str "UID"
  · rw [if_pos c1]; exact h
  rw [if_neg c1]
  by_cases c2 : p.name = str "DTSTAMP"
  · rw [if_pos c2]; exact h
  rw [if_neg c2]
  by_cases c3 : p.name = str "DTSTART"
  · rw [if_pos c3]; exact h
  rw [if_neg c3]
  by_cases c4 : p.name = str "DTEND"
  · rw [if_pos c4]; rfl
  rw [if_neg c4]
  by_cases c5 : p.name = str "DURATION"
  · rw [if_pos c5]; exact h
  rw [if_neg c5]
  by_cases c6 : p.name = str "SUMMARY"
  · rw [if_pos c6]; exact h
  rw [if_neg c6]
  by_cases c7 : p.name = str "DESCRIPTION"
  · rw [if_pos c7]; exact h
  rw [if_neg c7]
  by_cases c8 : p.name = str "LOCATION"
  · rw [if_pos c8]; exact h
  rw [if_neg c8]
  by_cases c9 : p.name = str "STATUS"
  · rw [if_pos c9]; exact h
  rw [if_neg c9]
  by_cases c10 : p.name = str "CLASS"
  · rw [if_pos c10]; exact h
  rw [if_neg c10]
  by_cases c11 : p.name = str "TRANSP"
  · rw [if_pos c11]; exact h
  rw [if_neg c11]
  by_cases c12 : p.name = str "PRIORITY"
  · rw [if_pos c12]; exact h
  rw [if_neg c12]
  by_cases c13 : p.name = str "SEQUENCE"
  · rw [if_pos c13]; exact h
  rw [if_neg c13]
  by_cases c14 : p.name = str "CREATED"
  · rw [if_pos c14]; exact h
  rw [if_neg c14]
  by_cases c15 : p.name = str "LAST-MODIFIED"
  · rw [if_pos c15]; exact h
  rw [if_neg c15]
  by_cases c16 : p.name = str "URL"
  · rw [if_pos c16]; exact h
  rw [if_neg c16]
  by_cases c17 : p.name = str "GEO"
  · rw [if_pos c17]; exact h
  rw [if_neg c17]
  by_cases c18 : p.name = str "RECURID"
  · rw [if_pos c18]; exact h
  rw [if_neg c18]
  by_cases c19 : p.name = str "RRULE"
  · rw [if_pos c19]; exact h
  rw [if_neg c19]
  by_cases c20 : p.name = str "ORGANIZER"
  · rw [if_pos c20]; exact h
  rw [if_neg c20]
  by_cases c21 : p.name = str "ATTENDEE"
  · rw [if_pos c21]; exact h
  rw [if_neg c21]
  by_cases c22 : p.name = str "CATEGORIES"
  · rw [if_pos c22]; exact h
  rw [if_neg c22]
  by_cases c23 : p.name = str "COMMENT"
  · rw [if_pos c23]; exact h
  rw [if_neg c23]
  by_cases c24 : p.name = str "CONTACT"
  · rw [if_pos c24]; exact h
  rw [if_neg c24]
  by_cases c25 : p.name = str "ATTACH"
  · rw [if_pos c25]; exact h
  rw [if_neg c25]
  by_cases c26 : p.name = str "EXDATE"
  · rw [if_pos c26]; exact h
  rw [if_neg c26]
  by_cases c27 : p.name = str "RELATED"
  · rw [if_pos c27]; exact h
  rw [if_neg c27]
  by_cases c28 : p.name = str "RESOURCES"
  · rw [if_pos c28]; exact h
  rw [if_neg c28]
  by_cases c29 : p.name = str "RDATE"
  · rw [if_pos c29]; exact h
  rw [if_neg c29]
  by_cases c30 : (str "X-").isPrefixOf p.name = true
  · rw [if_pos c30]; exact h
  rw [if_neg c30]
  exact h

/-- A property named `DTEND` sets `dtend`. -/
theorem evStep_dtend_set (e : EventDraft) (parameters : List (Str × Str)) (v : Str) :
    (evStep e ⟨str "DTEND", parameters, v⟩).dtend.isSome := rfl

/-- No case of `parseEventBlock`'s `switch` ever clears an already-set
`duration`. -/
theorem evStep_duration_isSome (e : EventDraft) (p : PropertyToken)
    (h : e.duration.isSome) : (evStep e p).duration.isSome := by
  unfold evStep
  by_cases c1 : p.name = str "UID"
  · rw [if_pos c1]; exact h
  rw [if_neg c1]
  by_cases c2 : p.name = str "DTSTAMP"
  · rw [if_pos c2]; exact h
  rw [if_neg c2]
  by_cases c3 : p.name = str "DTSTART"
  · rw [if_pos c3]; exact h
  rw [if_neg c3]
  by_cases c4 : p.name = str "DTEND"
  · rw [if_pos c4]; exact h
  rw [if_neg c4]
  by_cases c5 : p.name = str "DURATION"
  · rw [if_pos c5]; rfl
  rw [if_neg c5]
  by_cases c6 : p.name = str "SUMMARY"
  · rw [if_pos c6]; exact h
  rw [if_neg c6]
  by_cases c7 : p.name = str "DESCRIPTION"
  · rw [if_pos c7]; exact h
  rw [if_neg c7]
  by_cases c8 : p.name = str "LOCATION"
  · rw [if_pos c8]; exact h
  rw [if_neg c8]
  by_cases c9 : p.name = str "STATUS"
  · rw [if_pos c9]; exact h
  rw [if_neg c9]
  by_cases c10 : p.name = str "CLASS"
  · rw [if_pos c10]; exact h
  rw [if_neg c10]
  by_cases c11 : p.name = str "TRANSP"
  · rw [if_pos c11]; exact h
  rw [if_neg c11]
  by_cases c12 : p.name = str "PRIORITY"
  · rw [if_pos c12]; exact h
  rw [if_neg c12]
  by_cases c13 : p.name = str "SEQUENCE"
  · rw [if_pos c13]; exact h
  rw [if_neg c13]
  by_cases c14 : p.name = str "CREATED"
  · rw [if_pos c14]; exact h
  rw [if_neg c14]
  by_cases c15 : p.name = str "LAST-MODIFIED"
  · rw [if_pos c15]; exact h
  rw [if_neg c15]
  by_cases c16 : p.name = str "URL"
  · rw [if_pos c16]; exact h
  rw [if_neg c16]
  by_cases c17 : p.name = str "GEO"
  · rw [if_pos c17]; exact h
  rw [if_neg c17]
  by_cases c18 : p.name = str "RECURID"
  · rw [if_pos c18]; exact h
  rw [if_neg c18]
  by_cases c19 : p.name = str "RRULE"
  · rw [if_pos c19]; exact h
  rw [if_neg c19]
  by_cases c20 : p.name = str "ORGANIZER"
  · rw [if_pos c20]; exact h
  rw [if_neg c20]
  by_cases c21 : p.name = str "ATTENDEE"
  · rw [if_pos c21]; exact h
  rw [if_neg c21]
  by_cases c22 : p.name = str "CATEGORIES"
  · rw [if_pos c22]; exact h
  rw [if_neg c22]
  by_cases c23 : p.name = str "COMMENT"
  · rw [if_pos c23]; exact h
  rw [if_neg c23]
  by_cases c24 : p.name = str "CONTACT"
  · rw [if_pos c24]; exact h
  rw [if_neg c24]
  by_cases c25 : p.name = str "ATTACH"
  · rw [if_pos c25]; exact h
  rw [if_neg c25]
  by_cases c26 : p.name = str "EXDATE"
  · rw [if_pos c26]; exact h
  rw [if_neg c26]
  by_cases c27 : p.name = str "RELATED"
  · rw [if_pos c27]; exact h
  rw [if_neg c27]
  by_cases c28 : p.name = str "RESOURCES"
  · rw [if_pos c28]; exact h
  rw [if_neg c28]
  by_cases c29 : p.name = str "RDATE"
  · rw [if_pos c29]; exact h
  rw [if_neg c29]
  by_cases c30 : (str "X-").isPrefixOf p.name = true
  · rw [if_pos c30]; exact h
  rw [if_neg c30]
  exact h

/-- A property named `DURATION` sets `duration`. -/
theorem evStep_duration_set (e : EventDraft) (parameters : List (Str × Str)) (v : Str) :
    (evStep e ⟨str "DURATION", parameters, v⟩).duration.isSome := rfl

/-- After folding the property loop, `dtend` is set whenever some property in
the list is named `DTEND`. -/
theorem foldl_evStep_dtend (props : List PropertyToken) (e : EventDraft)
    (h : e.dtend.isSome ∨ ∃ p ∈ props, p.name = str "DTEND") :
    (props.foldl evStep e).dtend.isSome := by
  induction props generalizing e with
  | nil =>
    rcases h with h | ⟨p, hp, _⟩
    · exact h
    · cases hp
  | cons q rest ih =>
    rcases h with h | ⟨p, hp, hn⟩
    · exact ih _ (Or.inl (evStep_dtend_isSome e q h))
    · rcases List.mem_cons.mp hp with rfl | hmem
      · obtain ⟨nm, prms, v⟩ := p
        cases hn
        exact ih _ (Or.inl (evStep_dtend_set e prms v))
      · exact ih _ (Or.inr ⟨p, hmem, hn⟩)

/-- After folding the property loop, `duration` is set whenever some property
in the list is named `DURATION`. -/
theorem foldl_evStep_duration (props : List PropertyToken) (e : EventDraft)
    (h : e.duration.isSome ∨ ∃ p ∈ props, p.name = str "DURATION") :
    (props.foldl evStep e).duration.isSome := by
  induction props generalizing e with
  | nil =>
    rcases h with h | ⟨p, hp, _⟩
    · exact h
    · cases hp
  | cons q rest ih =>
    rcases h with h | ⟨p, hp, hn⟩
    · exact ih _ (Or.inl (evStep_duration_isSome e q h))
    · rcases List.mem_cons.mp hp with rfl | hmem
      · obtain ⟨nm, prms, v⟩ := p
        cases hn
        exact ih _ (Or.inl (evStep_duration_set e prms v))
      · exact ih _ (Or.inr ⟨p, hmem, hn⟩)

/-- Claim C6, amended: a `VEVENT` block carrying both a `DTEND` and a
`DURATION` property fails the schema refinement, so the event is dropped from
its parent calendar's `events` sequence, the rest of the calendar parses as
if the block were absent — and, amending the claim, nothing is appended to
`metadata.parseWarnings`: the catch around `parseEventBlock` only writes to
the debug console, so in the returned result the drop is silent. -/
theorem claim_C6_both_dtend_duration (debug : Bool) (t : Str)
    (props : List PropertyToken) (subs1 subs2 : List ComponentBlock)
    (sub : ComponentBlock) (p1 p2 : PropertyToken)
    (hty : sub.type = str "VEVENT")
    (h1 : p1 ∈ sub.properties) (hn1 : p1.name = str "DTEND")
    (h2 : p2 ∈ sub.properties) (hn2 : p2.name = str "DURATION") :
    parseEventBlockOpt sub = none ∧
    parseCalendarBlockE debug (.mk t props (subs1 ++ sub :: subs2)) =
      parseCalendarBlockE debug (.mk t props (subs1 ++ subs2)) := by
  have hd : (sub.properties.foldl evStep {}).dtend.isSome :=
    foldl_evStep_dtend _ _ (Or.inr ⟨p1, h1, hn1⟩)
  have hdur : (sub.properties.foldl evStep {}).duration.isSome :=
    foldl_evStep_duration _ _ (Or.inr ⟨p2, h2, hn2⟩)
  have hev : parseEventBlockOpt sub = none := by
    unfold parseEventBlockOpt icsEventSchemaParse
    have hce : (cleanupEvent (sub.properties.foldl evStep {})).dtend.isSome := by
      simpa [cleanupEvent] using hd
    have hcd : (cleanupEvent (sub.properties.foldl evStep {})).duration.isSome := by
      simpa [cleanupEvent] using hdur
    simp [eventCandidateOk, hce, hcd]
  refine ⟨hev, ?_⟩
  unfold parseCalendarBlockE
  simp [ComponentBlock.subComponents, ComponentBlock.properties, List.foldl_append,
    calSubStep, hty, hev]

/-- Witness for the amended C6: a two-property `DTEND`/`DURATION` event block
under a `VCALENDAR` is dropped and changes nothing. -/
theorem claim_C6_both_dtend_duration_witness :
    parseEventBlockOpt
        (.mk (str "VEVENT")
          [⟨str "DTEND", [], str "20230101"⟩, ⟨str "DURATION", [], str "PT1H"⟩] []) = none ∧
    parseCalendarBlockE false
        (.mk (str "VCALENDAR") []
          [.mk (str "VEVENT")
            [⟨str "DTEND", [], str "20230101"⟩, ⟨str "DURATION", [], str "PT1H"⟩] []]) =
      parseCalendarBlockE false (.mk (str "VCALENDAR") [] []) :=
  claim_C6_both_dtend_duration false (str "VCALENDAR") [] [] []
    (.mk (str "VEVENT")
      [⟨str "DTEND", [], str "20230101"⟩, ⟨str "DURATION", [], str "PT1H"⟩] [])
    ⟨str "DTEND", [], str "20230101"⟩ ⟨str "DURATION", [], str "PT1H"⟩
    rfl (by decide) rfl (by decide) rfl

/-- The property names recognised by `parseEventBlock`'s `switch` (every
non-`default:` case label). -/
def recognizedEventPropNames : List Str :=
  [str "UID", str "DTSTAMP", str "DTSTART", str "DTEND", str "DURATION", str "SUMMARY",
   str "DESCRIPTION", str "LOCATION", str "STATUS", str "CLASS", str "TRANSP", str "PRIORITY",
   str "SEQUENCE", str "CREATED", str "LAST-MODIFIED", str "URL", str "GEO", str "RECURID",
   str "RRULE", str "ORGANIZER", str "ATTENDEE", str "CATEGORIES", str "COMMENT", str "CONTACT",
   str "ATTACH", str "EXDATE", str "RELATED", str "RESOURCES", str "RDATE"]

/-- A property whose name is neither a recognised event field nor `X-`
prefixed falls through `parseEventBlock`'s `default:` branch and leaves the
accumulated event draft unchanged. -/
theorem evStep_unrecognized (e : EventDraft) (p : PropertyToken)
    (h : p.name ∉ recognizedEventPropNames)
    (hx : (str "X-").isPrefixOf p.name = false) : evStep e p = e := by
  simp only [recognizedEventPropNames, List.mem_cons, List.not_mem_nil, or_false,
    not_or] at h
  obtain ⟨h1, h2, h3, h4, h5, h6, h7, h8, h9, h10, h11, h12, h13, h14, h15, h16, h17,
    h18, h19, h20, h21, h22, h23, h24, h25, h26, h27, h28, h29⟩ := h
  simp only [evStep, h1, h2, h3, h4, h5, h6, h7, h8, h9, h10, h11, h12, h13, h14, h15,
    h16, h17, h18, h19, h20, h21, h22, h23, h24, h25, h26, h27, h28, h29, hx,
    if_false, ite_false, Bool.false_eq_true]

/-- Claim C9: inserting a property whose name is neither one of the
recognised event field names nor `X-` prefixed anywhere into a `VEVENT`
block's property list leaves the event mapper's result exactly unchanged —
it contributes to no field (custom properties included) and, the mapper
having no warning or error channel besides its thrown `ZodError`, produces
no warning or error either. -/
theorem claim_C9_unrecognized_dropped (t : Str) (ps1 ps2 : List PropertyToken)
    (subs : List ComponentBlock) (p : PropertyToken)
    (hname : p.name ∉ recognizedEventPropNames)
    (hx : (str "X-").isPrefixOf p.name = false) :
    parseEventBlockOpt (.mk t (ps1 ++ p :: ps2) subs) =
      parseEventBlockOpt (.mk t (ps1 ++ ps2) subs) := by
  have key : ∀ e : EventDraft, evStep e p = e := fun e => evStep_unrecognized e p hname hx
  unfold parseEventBlockOpt
  simp [ComponentBlock.properties, List.foldl_append, key]

/-- Witness for C9: a `FOO:bar` property inserted between `UID` and
`DTSTAMP` leaves the parsed event unchanged. -/
theorem claim_C9_unrecognized_dropped_witness :
    parseEventBlockOpt
        (.mk (str "VEVENT")
          ([⟨str "UID", [], str "1"⟩] ++
            ⟨str "FOO", [], str "bar"⟩ :: [⟨str "DTSTAMP", [], str "20230101T000000Z"⟩]) []) =
      parseEventBlockOpt
        (.mk (str "VEVENT")
          ([⟨str "UID", [], str "1"⟩] ++ [⟨str "DTSTAMP", [], str "20230101T000000Z"⟩]) []) :=
  claim_C9_unrecognized_dropped (str "VEVENT") [⟨str "UID", [], str "1"⟩]
    [⟨str "DTSTAMP", [], str "20230101T000000Z"⟩] [] ⟨str "FOO", [], str "bar"⟩
    (by decide) (by decide)

/-- Claim C10: `parsePersonProperty` never returns `rsvp = false`: the field
is `true` exactly when the `RSVP` parameter equals the exact string `"TRUE"`,
and absent (`undefined`) in every other case — including `"FALSE"`,
lowercase `"true"`, or a missing parameter — because the source computes
`parameters.RSVP === "TRUE" || undefined`. -/
theorem claim_C10_rsvp_never_false (value : Str) (parameters : List (Str × Str)) :
    (parsePersonProperty value parameters).rsvp ≠ some false ∧
    ((parsePersonProperty value parameters).rsvp = some true ↔
      objGet (str "RSVP") parameters = some (str "TRUE")) := by
  unfold parsePersonProperty
  by_cases h : objGet (str "RSVP") parameters = some (str "TRUE") <;> simp [h]

end ICS
